import Mathlib

/-!
# Verification of the KamekManager toolchain provisioning core

Shallow embedding of `kamekmanager/core/python_env.py`,
`kamekmanager/core/toolchain_setup.py` and
`kamekmanager/common/constants.py`, together with theorems settling the
frozen claims about version probing, path resolution, download-URL
resolution and the interactive upgrade workflow.

External effects (filesystem tests, subprocess invocations, HTTP fetches,
user prompts and `input()` lines) are modelled as explicit world records;
each Python function becomes a pure Lean function of the world and its
arguments.  Python `str` values are Lean `String`s; character-level string
operations (`strip`, `lower`, `replace`, `in`, `startswith`) are defined
below on `List Char`, matching Python's ASCII behaviour on the strings the
program manipulates.
-/

/-! ## String helpers (Python string primitives) -/

/-- Python whitespace test used by `str.strip()` (ASCII whitespace). -/
def isPySpace (c : Char) : Bool :=
  c == ' ' || c == '\t' || c == '\n' || c == '\r' || c.toNat == 11 || c.toNat == 12

/-- Python `str.strip()`: drop leading and trailing whitespace. -/
def stripChars (l : List Char) : List Char :=
  ((l.dropWhile isPySpace).reverse.dropWhile isPySpace).reverse

/-- Python `str.strip()` on a `String`. -/
def pyStrip (s : String) : String := String.mk (stripChars s.data)

/-- ASCII lower-casing of one character (`str.lower()` on the program's ASCII data). -/
def pyLowerChar (c : Char) : Char :=
  if 65 ≤ c.toNat ∧ c.toNat ≤ 90 then Char.ofNat (c.toNat + 32) else c

/-- Python `str.lower()`. -/
def strLower (s : String) : String := String.mk (s.data.map pyLowerChar)

/-- Does the character list start with the given pattern? (`str.startswith`). -/
def hasPreL : List Char → List Char → Bool
  | [], _ => true
  | _ :: _, [] => false
  | p :: ps, c :: cs => p == c && hasPreL ps cs

/-- Python `s.startswith(pat)` on `String`s. -/
def strHasPre (pat s : String) : Bool := hasPreL pat.data s.data

/-- Does the character list contain the pattern as a contiguous run? (Python `in`). -/
def hasInfixL (pat : List Char) : List Char → Bool
  | [] => pat.isEmpty
  | c :: cs => hasPreL pat (c :: cs) || hasInfixL pat cs

/-- Python `pat in s` on `String`s. -/
def strContains (pat s : String) : Bool := hasInfixL pat.data s.data

/-- Python `s.endswith(pat)`. -/
def strEndsWith (pat s : String) : Bool := hasPreL pat.data.reverse s.data.reverse

/-- Python `url.split('/')[-1]`: the run of characters after the last slash. -/
def lastSegment (s : String) : String :=
  String.mk ((s.data.reverse.takeWhile (fun c => c ≠ '/')).reverse)

/-- Digits of a decimal numeral to a `Nat` (Python `int(...)` on a digit run). -/
def digitsToNat (l : List Char) : Nat :=
  l.foldl (fun n c => n * 10 + (c.toNat - 48)) 0

/-! ## VersionProbe: the `Python <int>.<int>.<int>` regex

`python_env.py:39` runs `re.search(r"Python (\d+\.\d+\.\d+)", output,
re.IGNORECASE)`.  `matchPyAt` attempts the pattern at the head of a
character list (case-insensitive literal `Python`, one space, three
greedy digit runs separated by dots); `searchPy` scans left to right and
returns the leftmost match: the matched version text (regex group 1) and
the three parsed integers. -/

/-- Case-insensitive ASCII character comparison for the regex literal. -/
def ciEq (a b : Char) : Bool := pyLowerChar a == pyLowerChar b

/-- Try to match `Python <d+>.<d+>.<d+>` starting at the head of the list. -/
def matchPyAt (l : List Char) : Option (String × Nat × Nat × Nat) :=
  match l with
  | p :: y :: t :: h :: o :: n :: sp :: rest =>
    if ciEq p 'P' && ciEq y 'y' && ciEq t 't' && ciEq h 'h' && ciEq o 'o' &&
       ciEq n 'n' && sp == ' ' then
      let d1 := rest.takeWhile Char.isDigit
      let r1 := rest.dropWhile Char.isDigit
      if d1.isEmpty then none else
      match r1 with
      | '.' :: r2 =>
        let d2 := r2.takeWhile Char.isDigit
        let r3 := r2.dropWhile Char.isDigit
        if d2.isEmpty then none else
        match r3 with
        | '.' :: r4 =>
          let d3 := r4.takeWhile Char.isDigit
          if d3.isEmpty then none else
          some (String.mk (d1 ++ '.' :: d2 ++ '.' :: d3),
                digitsToNat d1, digitsToNat d2, digitsToNat d3)
        | _ => none
      | _ => none
    else none
  | _ => none

/-- Leftmost match of the version pattern in a character list (`re.search`). -/
def searchPy : List Char → Option (String × Nat × Nat × Nat)
  | [] => none
  | c :: rest =>
    match matchPyAt (c :: rest) with
    | some r => some r
    | none => searchPy rest

/-! ## Worlds and data model -/

/-- A captured `subprocess` result (`run_command` with `capture_output=True`,
`system_utils.py:128-135`): exit code plus captured text streams. -/
structure RunRes where
  returncode : Int
  stdout : String
  stderr : String
deriving DecidableEq

/-- External collaborators of `get_python_executable_info`
(`python_env.py:27-60`): filesystem file test, the `--version` subprocess
(`none` models `run_command` returning `None` after a caught launch
failure), `pathlib.Path.resolve`, and the platform flag `os.name == 'nt'`. -/
structure ProbeWorld where
  is_file : String → Bool
  run_version : String → Option RunRes
  resolve : String → String
  os_is_nt : Bool

/-- The dictionary built at `python_env.py:51-56` (the RuntimeDescriptor). -/
structure PyInfo where
  executable : String
  version_str : String
  version_tuple : Nat × Nat × Nat
  is_windows_store_app : Bool
deriving DecidableEq

/-- From `python_env.py:27-60` — probe an executable for its version.
Empty path or non-file → `none`; launch failure (`run_command` → `None`)
or nonzero exit → `none`; otherwise search the merged, stripped
stdout+stderr for the version pattern. -/
def get_python_executable_info (w : ProbeWorld) (p : String) : Option PyInfo :=
  if p = "" then none
  else if w.is_file p = false then none
  else
    match w.run_version p with
    | none => none
    | some r =>
      if r.returncode = 0 then
        match searchPy (pyStrip r.stdout ++ pyStrip r.stderr).data with
        | some (vstr, a, b, c) =>
          some { executable := w.resolve p
                 version_str := vstr
                 version_tuple := (a, b, c)
                 is_windows_store_app :=
                   w.os_is_nt && strContains "windowsapps" (strLower (w.resolve p)) }
        | none => none
      else none

/-- Python tuple `<` on integer tuples of possibly different lengths
(lexicographic; a proper initial run makes the shorter tuple smaller). -/
def pyTupleLt : List Nat → List Nat → Bool
  | [], [] => false
  | [], _ :: _ => true
  | _ :: _, [] => false
  | a :: as, b :: bs => if a < b then true else if b < a then false else pyTupleLt as bs

/-- World of `check_python_installation` (`python_env.py:62-87`): the probe
world plus `sys.executable` and `shutil.which("python")`.  The `which`
result is consulted only for the printed PATH advisory (lines 81-86). -/
structure CWorld where
  probe : ProbeWorld
  sys_executable : String
  which_python : Option String

/-- From `python_env.py:63-66` — selection of the probe target: the explicit
path when given and non-empty (Python truthiness), else `sys.executable`;
an empty result aborts with `None`. -/
def probe_target (w : CWorld) (specific_exe : Option String) : Option String :=
  let t := match specific_exe with
    | some s => if s ≠ "" then s else w.sys_executable
    | none => w.sys_executable
  if t = "" then none else some t

/-- From `python_env.py:62-87` — detect and vet an interpreter.  Probe the
selected target; reject major version 2 unconditionally; reject versions
below `min_version` (Python tuple comparison).  The Microsoft-Store
warning (lines 76-79) and the PATH ambiguity advisory (lines 81-86) only
print and do not affect the returned value. -/
def check_python_installation (w : CWorld) (min_version : List Nat)
    (specific_exe : Option String) : Option PyInfo :=
  match probe_target w specific_exe with
  | none => none
  | some t =>
    match get_python_executable_info w.probe t with
    | none => none
    | some info =>
      if info.version_tuple.1 = 2 then none
      else if pyTupleLt [info.version_tuple.1, info.version_tuple.2.1,
                         info.version_tuple.2.2] min_version then none
      else some info

/-! ## PathResolver: `toolchain_setup.py` -/

/-- Filesystem world of `_get_actual_devkitpro_windows_path`
(`toolchain_setup.py:11-58`): platform flag and directory test. -/
structure FsWorld where
  os_is_nt : Bool
  is_dir : String → Bool

/-- Python `env_path.replace("\\", "/")` (`toolchain_setup.py:20`). -/
def normSlash (s : String) : String :=
  String.mk (s.data.map (fun c => if c = '\\' then '/' else c))

/-- From `toolchain_setup.py:29-34` — scan drives D..G for `<drive>:\devkitPro`. -/
def firstDrive (w : FsWorld) : List Char → Option String
  | [] => none
  | d :: ds =>
    let p := String.mk [d, ':', '\\'] ++ "devkitPro"
    if w.is_dir p then some p else firstDrive w ds

/-- From `toolchain_setup.py:24-34` — choose the Windows devkitPro base:
`C:\devkitPro` if it is a directory, else the first of `D:..G:`. -/
def devkitWinBase (w : FsWorld) : Option String :=
  if w.is_dir "C:\\devkitPro" then some "C:\\devkitPro"
  else firstDrive w ['D', 'E', 'F', 'G']

/-- From `toolchain_setup.py:11-58` — resolve a possibly POSIX-style DEVKITPRO
value on Windows.  `/opt/devkitpro[/<sub>]` maps to an *existing* drive
base (plus the unchecked subpath); `/<letter>/<rest>` maps to
`<letter>:/<rest>` with, per the source comment, no existence check
("this function just resolves, caller checks existence"); other
POSIX-style paths yield `None`; everything else (and every non-Windows
value) is passed through unchecked as `pathlib.Path(env_path)`. -/
def _get_actual_devkitpro_windows_path (w : FsWorld) (env_path : String) :
    Option String :=
  if w.os_is_nt then
    let ep := normSlash env_path
    if strHasPre "/opt/devkitpro" (strLower ep) then
      match devkitWinBase w with
      | none => none
      | some base =>
        let sub := String.mk ((ep.data.drop 14).dropWhile (fun c => c = '/'))
        if sub ≠ "" then some (base ++ "\\" ++ sub) else some base
    else if strHasPre "/" ep then
      match ep.data with
      | _ :: c1 :: c2 :: rest =>
        if c2 = '/' ∧ c1.isAlpha then some (String.mk (c1 :: ':' :: c2 :: rest))
        else none
      | _ => none
    else some ep
  else some env_path

/-! ## Constants module and DownloadResolver

`kamekmanager/common/constants.py` defines the module-level string
constants below.  `constants_attr` is the attribute table of the module;
note that `PYTHON_INSTALLER_URL_WIN_FALLBACK`, which `python_env.py`
returns on each of its eight fallback paths, is *not* among the defined
attributes, so accessing it raises `AttributeError`. -/

/-- String attributes of `kamekmanager/common/constants.py` (lines 3-11). -/
def constants_attr (name : String) : Option String :=
  if name = "APP_NAME" then some "KamekManager"
  else if name = "APP_VERSION" then some "0.1.1-alpha"
  else if name = "PYTHON_INSTALLER_URL_WIN" then
    some "[https://www.python.org/ftp/python/3.13.3/python-3.13.3-amd64.exe](https://www.python.org/ftp/python/3.13.3/python-3.13.3-amd64.exe)"
  else if name = "DEVKITPRO_UPDATER_URL" then
    some "[https://github.com/devkitPro/installer/releases/latest/download/devkitProUpdater-bootstrap.jar](https://github.com/devkitPro/installer/releases/latest/download/devkitProUpdater-bootstrap.jar)"
  else none

/-- Constant `constants.MIN_PYTHON_VERSION` (`constants.py:7`). -/
def MIN_PYTHON_VERSION : List Nat := [3, 8]

/-- Module attribute access: a defined attribute yields its value, an
undefined one raises `AttributeError`. -/
def constantsGetattr (name : String) : Except String String :=
  match constants_attr name with
  | some v => Except.ok v
  | none => Except.error ("AttributeError: module kamekmanager.common.constants has no attribute " ++ name)

/-- Every fallback return in `get_latest_python_download_url` is the
expression `constants.PYTHON_INSTALLER_URL_WIN_FALLBACK`. -/
def installerFallback : Except String String :=
  constantsGetattr "PYTHON_INSTALLER_URL_WIN_FALLBACK"

/-- The `eol` field of one endoflife.date release cycle: a JSON boolean, a
date string, or some other JSON value. -/
inductive EolVal
  | b (v : Bool)
  | s (v : String)
  | other
deriving DecidableEq

/-- One release cycle of the endoflife.date payload: the optional `eol`
field and the optional `latest` version string. -/
structure ApiCycle where
  eol : Option EolVal
  latest : Option String
deriving DecidableEq

/-- Collaborators of `_get_latest_python_version_from_api`
(`python_env.py:89-129`): availability of the `requests` library and the
parsed JSON payload (`none` models a `RequestException` or a parse error,
both caught and converted to `None` at lines 124-129). -/
structure ApiWorld where
  requests_available : Bool
  response : Option (List ApiCycle)

/-- From `python_env.py:107-115` — the first cycle whose `eol` is the boolean
`False`, or the first whose `eol` is a string; cycles with `eol` `True`
or missing are skipped. -/
def findCycle : List ApiCycle → Option ApiCycle
  | [] => none
  | c :: rest =>
    match c.eol with
    | some (EolVal.b false) => some c
    | some (EolVal.s _) => some c
    | _ => findCycle rest

/-- From `python_env.py:89-129` — latest stable version string from the API;
`None` on missing library, unreachable collaborator, unparsable payload,
empty data, no usable cycle, or a cycle without a `latest` field. -/
def _get_latest_python_version_from_api (w : ApiWorld) : Option String :=
  if w.requests_available = false then none
  else
    match w.response with
    | none => none
    | some data =>
      if data.isEmpty then none
      else
        match findCycle data with
        | some c =>
          match c.latest with
          | some v => some v
          | none => none
        | none => none

/-- Collaborators of the download/install functions
(`python_env.py:131-288`): the API world, availability of BeautifulSoup,
the outcome of the python.org scraping fallback, the `download_file`
collaborator and the platform flag.  `scrape_outcome = some url` models
the scrape finding an installer link (returned at line 222);
`scrape_outcome = none` models every other exit of the scraping block,
each of which is literally `return constants.PYTHON_INSTALLER_URL_WIN_FALLBACK`
(lines 186, 191, 206, 225, 229, 232). -/
structure IWorld where
  api : ApiWorld
  bs4_available : Bool
  scrape_outcome : Option String
  download_ok : String → String → Bool
  os_is_nt : Bool

/-- From `python_env.py:131-232` — resolve the download URL for the latest
installer.  With an API version, build a direct FTP URL per `os_filter`;
otherwise fall back to scraping; every failure path evaluates
`constants.PYTHON_INSTALLER_URL_WIN_FALLBACK`. -/
def get_latest_python_download_url (w : IWorld) (os_filter : String) :
    Except String String :=
  match _get_latest_python_version_from_api w.api with
  | some v =>
    let base := "https://www.python.org/ftp/python"
    if os_filter = "win64" then Except.ok (base ++ "/" ++ v ++ "/python-" ++ v ++ "-amd64.exe")
    else if os_filter = "win32" then Except.ok (base ++ "/" ++ v ++ "/python-" ++ v ++ ".exe")
    else if os_filter = "macos" then Except.ok (base ++ "/" ++ v ++ "/python-" ++ v ++ "-macos11.pkg")
    else installerFallback
  | none =>
    if !w.bs4_available || !w.api.requests_available then installerFallback
    else
      match w.scrape_outcome with
      | some url => Except.ok url
      | none => installerFallback

/-- The (markdown-mangled) FTP base string literal at `python_env.py:244`. -/
def mangledFtpBase : String :=
  "[https://www.python.org/ftp/python](https://www.python.org/ftp/python)"

/-- From `python_env.py:236-249` — URL resolution of `install_python_interactive`:
`"latest"` (case-insensitive) queries the resolver; an `http(s)` value is
used verbatim; any other token is spliced verbatim into a direct FTP-style
URL with no pattern validation. -/
def resolve_installer_url (w : IWorld) (version_or_url : String) :
    Except String (Option String) :=
  if strLower version_or_url = "latest" then
    (get_latest_python_download_url w "win64").map some
  else if strHasPre "http://" version_or_url || strHasPre "https://" version_or_url then
    Except.ok (some version_or_url)
  else
    Except.ok (some (mangledFtpBase ++ "/" ++ version_or_url ++ "/python-" ++
      version_or_url ++ "-amd64.exe"))

/-- Python `pathlib.Path(name).suffix`, approximated for plain file names: the
final dot-led extension, empty when there is no dot or only a leading dot. -/
def pathSuffix (name : String) : String :=
  let rev := name.data.reverse
  let seg := rev.takeWhile (fun c => c ≠ '.')
  if seg.length = rev.length then ""
  else if (rev.drop (seg.length + 1)).isEmpty then ""
  else String.mk ('.' :: seg.reverse).reverse.reverse

/-- Python `version_or_url.replace('.', '_')` (`python_env.py:259`). -/
def replaceDots (s : String) : String :=
  String.mk (s.data.map (fun c => if c = '.' then '_' else c))

/-- From `python_env.py:235-288` — the interactive install workflow: resolve
the URL (propagating any exception), derive the installer file name,
download it, and guide the user.  `os.startfile` failures are caught
(lines 277-283) and do not affect the result. -/
def install_python_interactive (w : IWorld) (version_or_url : String)
    (download_dir : String) : Except String Bool :=
  match resolve_installer_url w version_or_url with
  | Except.error e => Except.error e
  | Except.ok urlOpt =>
    match urlOpt with
    | none => Except.ok false
    | some installer_url =>
      if installer_url = "" then Except.ok false
      else
        let name0 := lastSegment installer_url
        let name1 :=
          if strEndsWith ".exe" name0 || strEndsWith ".pkg" name0 ||
             strEndsWith ".dmg" name0 ||
             strContains "python_installer_downloaded" name0 then name0
          else
            let ext := pathSuffix name0
            "python_installer_" ++ replaceDots version_or_url ++
              (if ext ≠ "" then ext else ".exe")
        let installer_path := download_dir ++ "/" ++ name1
        if w.download_ok installer_url installer_path then Except.ok true
        else Except.ok false

/-! ## UpgradeOrchestrator: `upgrade_python_interactive` (`python_env.py:346-439`)

The session's interactive streams are a `PState`: the pending `input()`
lines and the pending yes/no answers of
`system_utils.prompt_user_for_confirmation` (which re-prompts on other
input, `system_utils.py:351-362`, so each consumed answer is a boolean).
Each phase either continues with a value and the remaining streams or
halts the whole function with an outcome; an exhausted stream models a
session blocked forever on its user and is reported as `stuck`. -/

/-- Pending user interaction: `input()` lines and confirmation answers. -/
structure PState where
  inputs : List String
  confirms : List Bool
deriving DecidableEq

/-- How a run of `upgrade_python_interactive` ends: a returned boolean, an
uncaught Python exception, or blocked waiting for user input forever. -/
inductive UOutcome
  | ret (b : Bool)
  | exn (msg : String)
  | stuck
deriving DecidableEq

/-- One phase of the workflow: continue with a value, or halt the session. -/
inductive Phase (α : Type)
  | cont (a : α) (s : PState)
  | halt (o : UOutcome)

/-- Collaborators of the upgrade workflow: probing (`CWorld`), the
`pip freeze` listing against the old runtime (captured output), the
install collaborators (`IWorld`), the live-streamed pip invocations of
`update_pip` and of the bulk reinstall — live-streamed `run_command`
results carry no captured output (`system_utils.py:123-126`), so only
their exit code (or `none` for a caught launch failure) is observable —
and the name of the transient requirements file. -/
structure UWorld where
  c : CWorld
  freeze : String → Option RunRes
  inst : IWorld
  run_pip_upgrade : String → Option Int
  run_pip_upgrade_user : String → Option Int
  run_pip_install_r : String → String → Option Int
  tmp_name : String

/-- From `python_env.py:290-315` — best-effort pip upgrade.  An invalid
interpreter or a nonzero exit yields `False`; since the live-streamed
result carries `stdout = stderr = None`, the combined output at line 305
is always the empty string, so the permission-retry branch (lines
306-314) cannot fire; a `None` result from `run_command` reaches line 305
and raises `AttributeError` on `None.stdout`. -/
def update_pip (w : UWorld) (p : String) : Except String Bool :=
  match get_python_executable_info w.c.probe p with
  | none => Except.ok false
  | some info =>
    match w.run_pip_upgrade info.executable with
    | none => Except.error "AttributeError: NoneType object has no attribute stdout"
    | some rc =>
      if rc = 0 then Except.ok true
      else
        let comb := strLower ("" ++ "")
        if rc ≠ 0 ∧ (strContains "permission denied" comb ∨
                     strContains "environmenterror" comb ∨
                     strContains "access is denied" comb) then
          match w.run_pip_upgrade_user info.executable with
          | some rcu => if rcu = 0 then Except.ok true else Except.ok false
          | none => Except.ok false
        else Except.ok false

/-- From `python_env.py:354-358` — when the old runtime is a Microsoft-Store
distribution, ask whether to proceed anyway; a `no` returns `False`. -/
def storeCheck (oldStore : Bool) (s : PState) : Phase Unit :=
  if oldStore then
    match s.confirms with
    | [] => Phase.halt UOutcome.stuck
    | c :: cr =>
      if c then Phase.cont () ⟨s.inputs, cr⟩ else Phase.halt (UOutcome.ret false)
  else Phase.cont () s

/-- From `python_env.py:367-369` — the no-snapshot prompt: continue without
package migration (snapshot stays `None`) or abort the session. -/
def snapshotPrompt (s : PState) : Phase (Option String) :=
  match s.confirms with
  | [] => Phase.halt UOutcome.stuck
  | c :: cr =>
    if c then Phase.cont none ⟨s.inputs, cr⟩ else Phase.halt (UOutcome.ret false)

/-- From `python_env.py:360-369` — Step 1, the package snapshot: `pip freeze`
against the old runtime captures its stdout only when the command ran,
exited 0 and printed something; otherwise the no-snapshot prompt runs. -/
def snapshotStep (w : UWorld) (old_exe : String) (s : PState) :
    Phase (Option String) :=
  match w.freeze old_exe with
  | some fr =>
    if fr.returncode = 0 ∧ fr.stdout ≠ "" then Phase.cont (some fr.stdout) s
    else snapshotPrompt s
  | none => snapshotPrompt s

/-- From `python_env.py:379` — `input(...).strip().replace("\"", "")`. -/
def processInput (s : String) : String :=
  String.mk ((stripChars s.data).filter (fun c => c ≠ '"'))

/-- Result of the new-path confirmation loop (`python_env.py:378-395`):
the user skipped migration, or confirmed a candidate (with its probe
descriptor), or the input stream ran dry. -/
inductive LoopOut
  | skip (s : PState)
  | confirmed (cand : String) (info : PyInfo) (s : PState)
  | stuck
deriving DecidableEq

/-- From `python_env.py:378-395` — the new-path confirmation loop.  Each pass
consumes one `input()` line: an empty line offers to skip migration; a
candidate that does not probe as a Python executable is rejected with a
retry; a candidate resolving to the old executable's path is rejected
with a retry; otherwise the user confirms (`no` retries). -/
def confirmLoop (pw : ProbeWorld) (old_exe : String) :
    List String → List Bool → LoopOut
  | [], _ => LoopOut.stuck
  | inp :: rest, confs =>
    if processInput inp = "" then
      match confs with
      | [] => LoopOut.stuck
      | c :: cr =>
        if c then LoopOut.skip ⟨rest, cr⟩ else confirmLoop pw old_exe rest cr
    else
      match get_python_executable_info pw (processInput inp) with
      | some ninfo =>
        if pw.resolve ninfo.executable = pw.resolve old_exe then
          confirmLoop pw old_exe rest confs
        else
          match confs with
          | [] => LoopOut.stuck
          | c :: cr =>
            if c then LoopOut.confirmed (processInput inp) ninfo ⟨rest, cr⟩
            else confirmLoop pw old_exe rest cr
      | none => confirmLoop pw old_exe rest confs

/-- From `python_env.py:409-439` — Step 4 and the summary: when a snapshot
exists, write the transient requirements file, run the bulk `pip install
-r` into the new runtime (result only advisory), delete the file
best-effort, print the summary and return `True`.  The second component
records the executed bulk reinstallation (new executable, requirements
text), `none` when the step was skipped. -/
def migrateInstall (w : UWorld) (new_exe : String) (req : Option String) :
    UOutcome × Option (String × String) :=
  match req with
  | some content =>
    let _advisory := w.run_pip_install_r new_exe w.tmp_name
    (UOutcome.ret true, some (new_exe, content))
  | none => (UOutcome.ret true, none)

/-- From `python_env.py:404-408` then Step 4 — Step 3: `update_pip` against the
new runtime; on success continue; on failure warn and ask whether to
continue with the reinstallation, aborting the session on `no`; an
exception propagates. -/
def migratePhase (w : UWorld) (new_exe : String) (req : Option String)
    (s : PState) : UOutcome × Option (String × String) :=
  match update_pip w new_exe with
  | Except.error e => (UOutcome.exn e, none)
  | Except.ok true => migrateInstall w new_exe req
  | Except.ok false =>
    match s.confirms with
    | [] => (UOutcome.stuck, none)
    | c :: _cr => if c then migrateInstall w new_exe req else (UOutcome.ret false, none)

/-- From `python_env.py:396-426` — after the loop: a skip returns `True` with
migration skipped (line 382 cleared the snapshot, so line 396 fires); a
confirmed candidate is re-probed at line 403 (`[...]['executable']`
subscripts `None` if the probe failed, raising `TypeError`) and the
session moves to Step 3. -/
def afterLoop (w : UWorld) (req : Option String) (lo : LoopOut) :
    UOutcome × Option (String × String) :=
  match lo with
  | LoopOut.stuck => (UOutcome.stuck, none)
  | LoopOut.skip _ => (UOutcome.ret true, none)
  | LoopOut.confirmed cand _ s =>
    match get_python_executable_info w.c.probe cand with
    | none => (UOutcome.exn "TypeError: NoneType object is not subscriptable", none)
    | some i2 => migratePhase w i2.executable req s

/-- From `python_env.py:346-439` — the interactive upgrade workflow: detect the
old runtime (min version `(0,0)`), handle the Microsoft-Store warning,
snapshot the installed packages, launch the new-installer workflow
(propagating its exceptions), run the new-path confirmation loop, then
migrate.  Returns the session outcome and the executed bulk
reinstallation, if any. -/
def upgrade_python_interactive (w : UWorld) (old_str : String)
    (download_dir : String) (s : PState) :
    UOutcome × Option (String × String) :=
  match check_python_installation w.c [0, 0] (some old_str) with
  | none => (UOutcome.ret false, none)
  | some oldInfo =>
    match storeCheck oldInfo.is_windows_store_app s with
    | Phase.halt o => (o, none)
    | Phase.cont _ s1 =>
      match snapshotStep w oldInfo.executable s1 with
      | Phase.halt o => (o, none)
      | Phase.cont req s2 =>
        match install_python_interactive w.inst "latest" download_dir with
        | Except.error e => (UOutcome.exn e, none)
        | Except.ok false => (UOutcome.ret false, none)
        | Except.ok true =>
          afterLoop w req (confirmLoop w.c.probe oldInfo.executable s2.inputs s2.confirms)

/-- A fully successful concrete session, used to instantiate the workflow
theorems: every probe answers `Python 3.12.4`, `pip freeze` yields one
package, the API offers `3.12.4`, downloads succeed, the user supplies
`newpy` and confirms. -/
def wFull : UWorld where
  c := { probe := { is_file := fun _ => true
                    run_version := fun _ => some ⟨0, "Python 3.12.4", ""⟩
                    resolve := fun s => s
                    os_is_nt := false }
         sys_executable := "/usr/bin/python3"
         which_python := none }
  freeze := fun _ => some ⟨0, "requests==2.25\n", ""⟩
  inst := { api := { requests_available := true
                     response := some [⟨some (EolVal.b false), some "3.12.4"⟩] }
            bs4_available := true
            scrape_outcome := none
            download_ok := fun _ _ => true
            os_is_nt := false }
  run_pip_upgrade := fun _ => some 0
  run_pip_upgrade_user := fun _ => some 0
  run_pip_install_r := fun _ _ => some 0
  tmp_name := "/tmp/kamek_req.txt"

/-- World for the C6 witness: the probe answers `Python 2.7.18`. -/
def wC6 : CWorld where
  probe := { is_file := fun _ => true
             run_version := fun _ => some ⟨0, "Python 2.7.18", ""⟩
             resolve := fun s => s
             os_is_nt := false }
  sys_executable := ""
  which_python := none

/-- World for C7: no explicit path, empty `sys.executable`, yet a perfectly
good interpreter first on the search path. -/
def wC7 : CWorld where
  probe := { is_file := fun _ => true
             run_version := fun _ => some ⟨0, "Python 3.12.4", ""⟩
             resolve := fun s => s
             os_is_nt := false }
  sys_executable := ""
  which_python := some "/usr/bin/python"

/-- Probe world for C5: the target prints `Python 3.8.10` but exits 1. -/
def wC5 : ProbeWorld where
  is_file := fun _ => true
  run_version := fun _ => some ⟨1, "Python 3.8.10", ""⟩
  resolve := fun s => s
  os_is_nt := false

/-- Download world for the C4 counterexample: collaborators irrelevant to
the explicit-token branch; downloads succeed. -/
def wC4 : IWorld where
  api := { requests_available := true, response := none }
  bs4_available := true
  scrape_outcome := none
  download_ok := fun _ _ => true
  os_is_nt := true

/-- Download world for C3: the endoflife.date collaborator is unreachable
(`requests.get` raises, caught to `None`) and the python.org scrape fails
the same way. -/
def wC3 : IWorld where
  api := { requests_available := true, response := none }
  bs4_available := true
  scrape_outcome := none
  download_ok := fun _ _ => false
  os_is_nt := true

/-- World for C8: as `wFull` but the new runtime's pip upgrade exits 1. -/
def wC8 : UWorld :=
  { wFull with run_pip_upgrade := fun _ => some 1 }

/-- World for C10: as `wFull` but `pip freeze` exits 0 with empty stdout. -/
def wC10 : UWorld :=
  { wFull with freeze := fun _ => some ⟨0, "", ""⟩ }

/-- Filesystem world in which nothing exists (C2 counterexample). -/
def wC2bad : FsWorld where
  os_is_nt := true
  is_dir := fun _ => false

/-- Filesystem world in which exactly `C:\devkitPro` exists. -/
def wC2ok : FsWorld where
  os_is_nt := true
  is_dir := fun s => s == "C:\\devkitPro"

/-! ## Helper lemmas -/

/-- A list is a `startswith`-style prefix of itself followed by anything. -/
theorem hasPreL_append (l m : List Char) : hasPreL l (l ++ m) = true := by
  induction l with
  | nil => rfl
  | cons c cs ih => simp [hasPreL, ih]

/-- String append acts as list append on the underlying data. -/
theorem strData_append (a b : String) : (a ++ b).data = a.data ++ b.data := by
  cases a
  cases b
  rfl

/-- Every string `s` satisfies `s.startswith(s + t)`; stated on the embedding. -/
theorem strHasPre_append (a b : String) : strHasPre a (a ++ b) = true := by
  unfold strHasPre
  rw [strData_append]
  exact hasPreL_append a.data b.data

/-- A string is a `startswith`-prefix of itself followed by two parts. -/
theorem strHasPre_append2 (a b c : String) : strHasPre a (a ++ b ++ c) = true := by
  unfold strHasPre
  rw [strData_append, strData_append, List.append_assoc]
  exact hasPreL_append a.data _

/-- Every string `s` satisfies `s.startswith(s)`; stated on the embedding. -/
theorem strHasPre_self (a : String) : strHasPre a a = true := by
  have h := strHasPre_append a ""
  simpa using h

/-- The drive scan only answers directories that exist. -/
theorem firstDrive_is_dir (w : FsWorld) (ds : List Char) (b : String)
    (h : firstDrive w ds = some b) : w.is_dir b = true := by
  induction ds with
  | nil => simp [firstDrive] at h
  | cons d dr ih =>
    unfold firstDrive at h
    by_cases hd : w.is_dir (String.mk [d, ':', '\\'] ++ "devkitPro") = true
    · rw [if_pos hd] at h
      cases h
      exact hd
    · rw [if_neg hd] at h
      exact ih h

/-- The devkitPro base selection only answers directories that exist. -/
theorem devkitWinBase_is_dir (w : FsWorld) (b : String)
    (h : devkitWinBase w = some b) : w.is_dir b = true := by
  unfold devkitWinBase at h
  by_cases hc : w.is_dir "C:\\devkitPro" = true
  · rw [if_pos hc] at h
    cases h
    exact hc
  · rw [if_neg hc] at h
    exact firstDrive_is_dir w _ b h

/-- The no-snapshot prompt can only continue without a snapshot. -/
theorem snapshotPrompt_no_snapshot (s s' : PState) (c : String) :
    snapshotPrompt s ≠ Phase.cont (some c) s' := by
  unfold snapshotPrompt
  cases s.confirms with
  | nil => simp
  | cons b br => cases b <;> simp

/-- A snapshot only continues out of Step 1 when `pip freeze` against the
old runtime ran, exited 0 and printed that exact non-empty text. -/
theorem snapshotStep_captured (w : UWorld) (old : String) (s s' : PState)
    (c : String) (h : snapshotStep w old s = Phase.cont (some c) s') :
    ∃ fr : RunRes, w.freeze old = some fr ∧ fr.returncode = 0 ∧
      fr.stdout = c ∧ c ≠ "" := by
  unfold snapshotStep at h
  cases hf : w.freeze old with
  | none =>
    rw [hf] at h
    exact absurd h (snapshotPrompt_no_snapshot s s' c)
  | some fr =>
    rw [hf] at h
    dsimp only [] at h
    by_cases hc : fr.returncode = 0 ∧ fr.stdout ≠ ""
    · rw [if_pos hc] at h
      injection h with h1 h2
      injection h1 with h3
      exact ⟨fr, rfl, hc.1, h3, h3 ▸ hc.2⟩
    · rw [if_neg hc] at h
      exact absurd h (snapshotPrompt_no_snapshot s s' c)

/-- The confirmation loop only reports a confirmed candidate that probes
as a Python executable whose resolved path differs from the old one. -/
theorem confirmLoop_confirmed (pw : ProbeWorld) (old : String)
    (inputs : List String) (confs : List Bool) (cand : String)
    (info : PyInfo) (s' : PState)
    (h : confirmLoop pw old inputs confs = LoopOut.confirmed cand info s') :
    get_python_executable_info pw cand = some info ∧
    pw.resolve info.executable ≠ pw.resolve old := by
  induction inputs generalizing confs with
  | nil => simp [confirmLoop] at h
  | cons inp rest ih =>
    unfold confirmLoop at h
    by_cases hc : processInput inp = ""
    · rw [if_pos hc] at h
      cases confs with
      | nil => simp at h
      | cons b br =>
        cases b
        · simp only [Bool.false_eq_true, if_false] at h
          exact ih br h
        · simp at h
    · rw [if_neg hc] at h
      cases hg : get_python_executable_info pw (processInput inp) with
      | none =>
        rw [hg] at h
        exact ih confs h
      | some ninfo =>
        rw [hg] at h
        dsimp only [] at h
        by_cases hr : pw.resolve ninfo.executable = pw.resolve old
        · rw [if_pos hr] at h
          exact ih confs h
        · rw [if_neg hr] at h
          cases confs with
          | nil => simp at h
          | cons b br =>
            cases b
            · simp only [Bool.false_eq_true, if_false] at h
              exact ih br h
            · simp only [if_true] at h
              injection h with h1 h2 h3
              subst h1
              subst h2
              exact ⟨hg, hr⟩

/-! ## Claims -/

/-- Claim C1: the bulk package-migration step of the upgrade workflow is
executed only when a non-null package snapshot was captured (a successful,
non-empty `pip freeze` of the old runtime) and a new-runtime path was
confirmed whose resolved executable differs from the old runtime's
resolved executable; every other path through the workflow skips it. -/
theorem C1_migration_requires_snapshot_and_distinct_runtime
    (w : UWorld) (old dl : String) (s : PState) (nexe content : String)
    (h : (upgrade_python_interactive w old dl s).2 = some (nexe, content)) :
    ∃ (oldInfo : PyInfo) (fr : RunRes) (cand : String) (ninfo : PyInfo),
      check_python_installation w.c [0, 0] (some old) = some oldInfo ∧
      w.freeze oldInfo.executable = some fr ∧ fr.returncode = 0 ∧
      fr.stdout = content ∧ content ≠ "" ∧
      get_python_executable_info w.c.probe cand = some ninfo ∧
      nexe = ninfo.executable ∧
      w.c.probe.resolve ninfo.executable ≠ w.c.probe.resolve oldInfo.executable := by
  unfold upgrade_python_interactive at h
  cases hchk : check_python_installation w.c [0, 0] (some old) with
  | none => rw [hchk] at h; simp at h
  | some oldInfo =>
    rw [hchk] at h
    dsimp only [] at h
    cases hst : storeCheck oldInfo.is_windows_store_app s with
    | halt o => rw [hst] at h; simp at h
    | cont u s1 =>
      rw [hst] at h
      dsimp only [] at h
      cases hsn : snapshotStep w oldInfo.executable s1 with
      | halt o => rw [hsn] at h; simp at h
      | cont req s2 =>
        rw [hsn] at h
        dsimp only [] at h
        cases hin : install_python_interactive w.inst "latest" dl with
        | error e => rw [hin] at h; simp at h
        | ok b =>
          rw [hin] at h
          cases b
          · simp at h
          · dsimp only [] at h
            cases hlo : confirmLoop w.c.probe oldInfo.executable s2.inputs s2.confirms with
            | stuck => rw [hlo] at h; simp [afterLoop] at h
            | skip s3 => rw [hlo] at h; simp [afterLoop] at h
            | confirmed cand ninfo s3 =>
              rw [hlo] at h
              obtain ⟨hg, hne⟩ :=
                confirmLoop_confirmed w.c.probe oldInfo.executable s2.inputs
                  s2.confirms cand ninfo s3 hlo
              unfold afterLoop at h
              dsimp only [] at h
              rw [hg] at h
              dsimp only [] at h
              unfold migratePhase at h
              cases hup : update_pip w ninfo.executable with
              | error e => rw [hup] at h; simp at h
              | ok ub =>
                rw [hup] at h
                have hmi : (migrateInstall w ninfo.executable req).2 =
                    some (nexe, content) := by
                  cases ub
                  · dsimp only [] at h
                    cases hcf : s3.confirms with
                    | nil => rw [hcf] at h; simp at h
                    | cons cb cr =>
                      rw [hcf] at h
                      dsimp only [] at h
                      cases cb
                      · simp at h
                      · simpa using h
                  · dsimp only [] at h
                    exact h
                cases hreq : req with
                | none => rw [hreq] at hmi; simp [migrateInstall] at hmi
                | some content2 =>
                  rw [hreq] at hmi
                  unfold migrateInstall at hmi
                  dsimp only [] at hmi
                  simp only [Option.some.injEq, Prod.mk.injEq] at hmi
                  obtain ⟨h1, h2⟩ := hmi
                  obtain ⟨fr, hf, h0, hso, hnz⟩ :=
                    snapshotStep_captured w oldInfo.executable s1 s2 content2
                      (hreq ▸ hsn)
                  refine ⟨oldInfo, fr, cand, ninfo, rfl, hf, h0, ?_, ?_, hg, ?_, hne⟩
                  · rw [hso, h2]
                  · rw [← h2]; exact hnz
                  · rw [← h1]

/-- Witness for C1 at the fully successful session `wFull`. -/
theorem C1_migration_witness :
    (upgrade_python_interactive wFull "oldpy" "/dl" ⟨["newpy"], [true]⟩).2 =
      some ("newpy", "requests==2.25\n") ∧
    ∃ (oldInfo : PyInfo) (fr : RunRes) (cand : String) (ninfo : PyInfo),
      check_python_installation wFull.c [0, 0] (some "oldpy") = some oldInfo ∧
      wFull.freeze oldInfo.executable = some fr ∧ fr.returncode = 0 ∧
      fr.stdout = "requests==2.25\n" ∧ ("requests==2.25\n" : String) ≠ "" ∧
      get_python_executable_info wFull.c.probe cand = some ninfo ∧
      "newpy" = ninfo.executable ∧
      wFull.c.probe.resolve ninfo.executable ≠ wFull.c.probe.resolve oldInfo.executable :=
  ⟨by decide,
   C1_migration_requires_snapshot_and_distinct_runtime wFull "oldpy" "/dl"
     ⟨["newpy"], [true]⟩ "newpy" "requests==2.25\n" (by decide)⟩

/-- Counterexample to claim C2 as stated: on Windows, a `/c/tools`-style
value is rewritten to `c:/tools` and returned even in a world where no
path exists at all — the resolver does not verify existence on this
branch (the source comment says the caller checks existence). -/
theorem C2_resolver_nonexistent_cex :
    _get_actual_devkitpro_windows_path wC2bad "/c/tools" = some "c:/tools" ∧
    wC2bad.is_dir "c:/tools" = false := by
  constructor
  · decide
  · rfl

/-- Claim C2 amended: existence is only verified for the base directory of
the `/opt/devkitpro` rewrite — whenever that branch returns a path, the
chosen drive base exists and is a leading part of the returned path. -/
theorem C2_amended_opt_branch_verifies_base (w : FsWorld) (env p : String)
    (hnt : w.os_is_nt = true)
    (hopt : strHasPre "/opt/devkitpro" (strLower (normSlash env)) = true)
    (hres : _get_actual_devkitpro_windows_path w env = some p) :
    ∃ base, devkitWinBase w = some base ∧ w.is_dir base = true ∧
      strHasPre base p = true := by
  unfold _get_actual_devkitpro_windows_path at hres
  simp only [hnt, hopt, if_true] at hres
  cases hb : devkitWinBase w with
  | none => rw [hb] at hres; simp at hres
  | some base =>
    rw [hb] at hres
    dsimp only [] at hres
    by_cases hsub :
        String.mk (((normSlash env).data.drop 14).dropWhile (fun c => c = '/')) ≠ ""
    · rw [if_pos hsub] at hres
      injection hres with h1
      refine ⟨base, rfl, devkitWinBase_is_dir w base hb, ?_⟩
      rw [← h1]
      exact strHasPre_append2 base "\\" _
    · rw [if_neg hsub] at hres
      injection hres with h1
      refine ⟨base, rfl, devkitWinBase_is_dir w base hb, ?_⟩
      rw [← h1]
      exact strHasPre_self base

/-- Witness for the amended C2: resolving `/opt/devkitpro/devkitPPC` in a
world where `C:\devkitPro` exists yields a path led by that base. -/
theorem C2_amended_witness :
    _get_actual_devkitpro_windows_path wC2ok "/opt/devkitpro/devkitPPC" =
      some "C:\\devkitPro\\devkitPPC" ∧
    ∃ base, devkitWinBase wC2ok = some base ∧ wC2ok.is_dir base = true ∧
      strHasPre base "C:\\devkitPro\\devkitPPC" = true :=
  ⟨by decide,
   C2_amended_opt_branch_verifies_base wC2ok "/opt/devkitpro/devkitPPC"
     "C:\\devkitPro\\devkitPPC" rfl (by decide) (by decide)⟩

/-- Claim C3: the claim describes the intended behaviour (fall back to the
hardcoded installer URL, never raise), but the code evaluates
`constants.PYTHON_INSTALLER_URL_WIN_FALLBACK`, an attribute `constants.py`
does not define (it defines `PYTHON_INSTALLER_URL_WIN`), so when the
release-metadata collaborator is unreachable and the scrape fails the
call raises `AttributeError` instead of returning the fallback URL. -/
theorem C3_fallback_raises_attribute_error :
    constants_attr "PYTHON_INSTALLER_URL_WIN_FALLBACK" = none ∧
    (constants_attr "PYTHON_INSTALLER_URL_WIN").isSome = true ∧
    get_latest_python_download_url wC3 "win64" =
      Except.error "AttributeError: module kamekmanager.common.constants has no attribute PYTHON_INSTALLER_URL_WIN_FALLBACK" := by
  refine ⟨by decide, by decide, by rfl⟩

/-- Counterexample to claim C4 as stated: for the non-`int.int.int` token
`"abc"` the install workflow's URL resolution yields a direct FTP-style
URL with the token spliced in verbatim — not the hardcoded fallback
installer URL of `constants.py` — and the install run completes without
an exception. -/
theorem C4_token_abc_cex :
    resolve_installer_url wC4 "abc" =
      Except.ok (some "[https://www.python.org/ftp/python](https://www.python.org/ftp/python)/abc/python-abc-amd64.exe") ∧
    ("[https://www.python.org/ftp/python](https://www.python.org/ftp/python)/abc/python-abc-amd64.exe" : String) ≠
      "[https://www.python.org/ftp/python/3.13.3/python-3.13.3-amd64.exe](https://www.python.org/ftp/python/3.13.3/python-3.13.3-amd64.exe)" ∧
    install_python_interactive wC4 "abc" "/dl" = Except.ok true := by
  refine ⟨by rfl, by decide, by rfl⟩

/-- Claim C4 amended: a token that is neither `"latest"` nor an `http(s)`
URL is used verbatim — with no pattern validation and no fallback — to
build a direct download URL `.../<token>/python-<token>-amd64.exe`, and
no exception is raised. -/
theorem C4_amended_verbatim_url (w : IWorld) (t : String)
    (hl : strLower t ≠ "latest")
    (h1 : strHasPre "http://" t = false)
    (h2 : strHasPre "https://" t = false) :
    resolve_installer_url w t =
      Except.ok (some (mangledFtpBase ++ "/" ++ t ++ "/python-" ++ t ++ "-amd64.exe")) := by
  unfold resolve_installer_url
  simp [hl, h1, h2]

/-- Witness for the amended C4 at the token `3.9.1`. -/
theorem C4_amended_witness :
    resolve_installer_url wC4 "3.9.1" =
      Except.ok (some (mangledFtpBase ++ "/" ++ "3.9.1" ++ "/python-" ++ "3.9.1" ++ "-amd64.exe")) :=
  C4_amended_verbatim_url wC4 "3.9.1" (by decide) (by decide) (by decide)

/-- Counterexample to claim C5 as stated: a probe whose merged output
contains `Python 3.8.10` but whose process exits 1 yields `NotFound`,
not a descriptor — the claim omits the probe's exit-code-0 gate. -/
theorem C5_nonzero_exit_cex :
    searchPy (pyStrip "Python 3.8.10" ++ pyStrip "").data =
      some ("3.8.10", 3, 8, 10) ∧
    get_python_executable_info wC5 "py" = none := by
  constructor
  · decide
  · decide

/-- Claim C5 amended: for a probe of a non-empty file path whose version
command ran and exited 0, a (leftmost) case-insensitive
`Python <maj>.<min>.<patch>` match in the merged stripped stdout+stderr
yields a descriptor with exactly that version triple, and the absence of
any match yields `NotFound` (`None`). -/
theorem C5_amended_version_extraction (w : ProbeWorld) (p : String)
    (r : RunRes) (hp : p ≠ "") (hf : w.is_file p = true)
    (hr : w.run_version p = some r) (h0 : r.returncode = 0) :
    (∀ v a b c,
      searchPy (pyStrip r.stdout ++ pyStrip r.stderr).data = some (v, a, b, c) →
      Option.map (fun i => PyInfo.version_tuple i) (get_python_executable_info w p) =
        some (a, b, c)) ∧
    (searchPy (pyStrip r.stdout ++ pyStrip r.stderr).data = none →
      get_python_executable_info w p = none) := by
  unfold get_python_executable_info
  rw [if_neg hp, hf]
  simp only [Bool.true_eq_false, if_false, hr]
  constructor
  · intro v a b c hsr
    rw [if_pos h0, hsr]
    rfl
  · intro hsr
    rw [if_pos h0, hsr]

/-- Witness for the amended C5 at output `Python 3.12.4`. -/
theorem C5_amended_witness :
    Option.map (fun i => PyInfo.version_tuple i)
      (get_python_executable_info wFull.c.probe "py") = some (3, 12, 4) :=
  (C5_amended_version_extraction wFull.c.probe "py" ⟨0, "Python 3.12.4", ""⟩
      (by decide) rfl rfl rfl).1 "3.12.4" 3 12 4 (by decide)

/-- Claim C6: whenever the probed interpreter reports major version 2, the
detector returns `None`, for every `min_version` argument. -/
theorem C6_python2_rejected (w : CWorld) (minv : List Nat)
    (spec_exe : Option String) (t : String) (info : PyInfo)
    (ht : probe_target w spec_exe = some t)
    (hi : get_python_executable_info w.probe t = some info)
    (h2 : info.version_tuple.1 = 2) :
    check_python_installation w minv spec_exe = none := by
  unfold check_python_installation
  rw [ht]
  dsimp only []
  rw [hi]
  dsimp only []
  rw [if_pos h2]

/-- Witness for C6: a `Python 2.7.18` probe is rejected even with
`min_version = (0, 0)`. -/
theorem C6_python2_witness :
    probe_target wC6 (some "py2") = some "py2" ∧
    check_python_installation wC6 [0, 0] (some "py2") = none :=
  ⟨by decide,
   C6_python2_rejected wC6 [0, 0] (some "py2") "py2"
     ⟨"py2", "2.7.18", (2, 7, 18), false⟩ (by decide) (by decide) rfl⟩

/-- Counterexample to claim C7 as stated: with no explicit path and an
empty `sys.executable`, the detector returns `None` without ever probing
the interpreter that is first on the search path, even though that
interpreter probes successfully. -/
theorem C7_no_path_fallback_cex :
    wC7.which_python = some "/usr/bin/python" ∧
    (get_python_executable_info wC7.probe "/usr/bin/python").isSome = true ∧
    check_python_installation wC7 [0, 0] none = none := by
  refine ⟨rfl, by decide, by decide⟩

/-- Claim C7 amended: the probe target is the explicit path when given
(and non-empty), else the currently running interpreter; when both are
unavailable the detector reports `None` — the search path is consulted
only for a printed advisory and never influences the result. -/
theorem C7_amended_target_selection (w : CWorld) (minv : List Nat)
    (s x : String) (y : Option String) :
    (s ≠ "" → check_python_installation w minv (some s) =
      check_python_installation
        { w with sys_executable := x, which_python := y } minv (some s)) ∧
    (check_python_installation w minv none =
      check_python_installation { w with which_python := y } minv none) ∧
    (w.sys_executable = "" → check_python_installation w minv none = none) := by
  refine ⟨?_, ?_, ?_⟩
  · intro hs
    unfold check_python_installation probe_target
    simp only [if_pos hs]
  · rfl
  · intro he
    unfold check_python_installation probe_target
    simp [he]

/-- Witness for the amended C7: an explicit target makes the ambient
fields irrelevant, and an empty `sys.executable` with no explicit target
yields `None`. -/
theorem C7_amended_witness :
    check_python_installation wC7 [0, 0] (some "/usr/bin/python") =
      check_python_installation
        { wC7 with sys_executable := "zzz", which_python := none } [0, 0]
        (some "/usr/bin/python") ∧
    check_python_installation wC7 [0, 0] none = none :=
  ⟨(C7_amended_target_selection wC7 [0, 0] "/usr/bin/python" "zzz" none).1
     (by decide),
   (C7_amended_target_selection wC7 [0, 0] "x" "zzz" none).2.2 rfl⟩

/-- Counterexample to claim C8 as stated: when the pip upgrade of the new
runtime fails, the workflow does not proceed unconditionally — it asks the
user, and a declined confirmation terminates the session with `False` and
no bulk reinstallation ever executed. -/
theorem C8_pip_failure_abort_cex :
    update_pip wC8 "newpy" = Except.ok false ∧
    migratePhase wC8 "newpy" (some "requests==2.25\n") ⟨[], [false]⟩ =
      (UOutcome.ret false, none) ∧
    upgrade_python_interactive wC8 "oldpy" "/dl" ⟨["newpy"], [true, false]⟩ =
      (UOutcome.ret false, none) := by
  refine ⟨by rfl, by rfl, by decide⟩

/-- Claim C8 amended: after a successful pip upgrade the workflow proceeds
unconditionally to the reinstallation step; after a failed one it emits an
advisory and asks the user — it proceeds exactly when the user confirms
and otherwise terminates the session with `False`. -/
theorem C8_amended_confirm_gate (w : UWorld) (nexe : String)
    (req : Option String) (inp : List String) (confs : List Bool) :
    (update_pip w nexe = Except.ok true →
      migratePhase w nexe req ⟨inp, confs⟩ = migrateInstall w nexe req) ∧
    (∀ cr, update_pip w nexe = Except.ok false → confs = true :: cr →
      migratePhase w nexe req ⟨inp, confs⟩ = migrateInstall w nexe req) ∧
    (∀ cr, update_pip w nexe = Except.ok false → confs = false :: cr →
      migratePhase w nexe req ⟨inp, confs⟩ = (UOutcome.ret false, none)) := by
  refine ⟨?_, ?_, ?_⟩
  · intro hu
    unfold migratePhase
    rw [hu]
  · intro cr hu hc
    unfold migratePhase
    rw [hu]
    dsimp only []
    rw [hc]
    rfl
  · intro cr hu hc
    unfold migratePhase
    rw [hu]
    dsimp only []
    rw [hc]
    rfl

/-- Witness for the amended C8: a successful pip upgrade proceeds, and a
failed one followed by a `yes` proceeds. -/
theorem C8_amended_witness :
    migratePhase wFull "newpy" (some "requests==2.25\n") ⟨[], []⟩ =
      migrateInstall wFull "newpy" (some "requests==2.25\n") ∧
    migratePhase wC8 "newpy" (some "requests==2.25\n") ⟨[], [true]⟩ =
      migrateInstall wC8 "newpy" (some "requests==2.25\n") :=
  ⟨(C8_amended_confirm_gate wFull "newpy" (some "requests==2.25\n") [] []).1 rfl,
   (C8_amended_confirm_gate wC8 "newpy" (some "requests==2.25\n") [] [true]).2.1
     [] rfl rfl⟩

/-- Claim C9: a candidate path in the confirmation loop whose resolved
executable equals the old runtime's resolved executable is rejected with a
retry — the session behaves exactly as if re-prompted on the rest of the
input, and no abort occurs. -/
theorem C9_same_path_retry (pw : ProbeWorld) (old inp : String)
    (rest : List String) (confs : List Bool) (ninfo : PyInfo)
    (hne : processInput inp ≠ "")
    (hp : get_python_executable_info pw (processInput inp) = some ninfo)
    (heq : pw.resolve ninfo.executable = pw.resolve old) :
    confirmLoop pw old (inp :: rest) confs = confirmLoop pw old rest confs := by
  conv_lhs => unfold confirmLoop
  rw [if_neg hne, hp]
  dsimp only []
  rw [if_pos heq]

/-- Witness for C9: the user re-enters the old path (with quotes and
spaces); the loop consumes it and continues with the remaining input. -/
theorem C9_same_path_witness :
    processInput " \"oldpy\" " ≠ "" ∧
    confirmLoop wFull.c.probe "oldpy" [" \"oldpy\" ", "newpy"] [true] =
      confirmLoop wFull.c.probe "oldpy" ["newpy"] [true] :=
  ⟨by decide,
   C9_same_path_retry wFull.c.probe "oldpy" " \"oldpy\" " ["newpy"] [true]
     ⟨"oldpy", "3.12.4", (3, 12, 4), false⟩ (by decide) (by decide) rfl⟩

/-- Claim C10: a `pip freeze` that exits 0 with empty stdout is handled by
the same no-snapshot prompt as a failed listing — no snapshot can come out
of that prompt, and it offers continue-without-migration or abort. -/
theorem C10_empty_freeze_like_failure (w : UWorld) (old : String)
    (s : PState) (r : RunRes) (hf : w.freeze old = some r)
    (_h0 : r.returncode = 0) (he : r.stdout = "") :
    snapshotStep w old s = snapshotPrompt s ∧
    (∀ (w2 : UWorld) (r2 : RunRes), w2.freeze old = some r2 →
      r2.returncode ≠ 0 → snapshotStep w2 old s = snapshotPrompt s) ∧
    (∀ (c : String) (s' : PState), snapshotPrompt s ≠ Phase.cont (some c) s') := by
  refine ⟨?_, ?_, fun c s' => snapshotPrompt_no_snapshot s s' c⟩
  · unfold snapshotStep
    rw [hf]
    dsimp only []
    rw [if_neg]
    intro hcon
    exact hcon.2 he
  · intro w2 r2 hf2 hrc2
    unfold snapshotStep
    rw [hf2]
    dsimp only []
    rw [if_neg]
    intro hcon
    exact hrc2 hcon.1

/-- Witness for C10 in a session whose old runtime has zero installed
packages: the listing exits 0 with empty stdout and Step 1 falls into the
no-snapshot prompt. -/
theorem C10_empty_freeze_witness :
    snapshotStep wC10 "oldpy" ⟨["newpy"], [true]⟩ =
      snapshotPrompt ⟨["newpy"], [true]⟩ :=
  (C10_empty_freeze_like_failure wC10 "oldpy" ⟨["newpy"], [true]⟩
    ⟨0, "", ""⟩ rfl rfl rfl).1
